import Mathlib

/-!
# Verification of savory-pie's authorization, resource and view layers

Shallow embedding of the savory-pie REST-resource mapping layer:

* `savory_pie/auth.py` — the `authorization` decorator and the default
  `authorization_adapter`;
* `savory_pie/django/auth.py` — `uri_auth_adapter` and
  `DjangoUserPermissionValidator`;
* `savory_pie/django/resources.py` — `QuerySetResource.get`,
  `QuerySetResource.get_child_resource`, `ModelResource.put`;
* `savory_pie/django/views.py` — the `api_view` dispatcher.

Python exceptions are modelled with `Except PyErr`; mutation is modelled by
explicit state passing.  Where a Python call site observably consults a
collaborator (`user.has_perm`) or invokes a wrapped handler, the embedding
returns an extra boolean flag recording that the call happened, so that
"the check is never consulted" is a provable statement.
-/

namespace SavoryPie

/-- The exceptions raised by the code under study.  `authorizationError`
models `savory_pie.errors.AuthorizationError(name)` (the module defining it
is not part of the sources; the decorator in `savory_pie/auth.py` raises it
carrying the field name).  `doesNotExist` and `multipleObjectsReturned`
model the Django ORM exceptions raised by `queryset.get`; `typeError` and
`valueError` model the Python builtins. -/
inductive PyErr where
  | authorizationError (name : String)
  | doesNotExist
  | multipleObjectsReturned
  | typeError (msg : String)
  | valueError (msg : String)
  | keyError (key : String)
  | userError (msg : String)
deriving DecidableEq, Repr

/-- `DjangoUserPermissionValidator.is_write_authorized` from
`savory_pie/django/auth.py` lines 46-56:

```python
user = ctx.request.user
if source != target:
    return user.has_perm(self.permission_name)
return True
```

The embedding is instrumented: `has_perm` stands for
`ctx.request.user.has_perm`, and the second component of the result records
whether `user.has_perm` was consulted (`true` exactly on the `source !=
target` branch, where the code calls it). -/
def is_write_authorized {V : Type} [DecidableEq V]
    (has_perm : String → Bool) (permission_name : String)
    (source target : V) : Bool × Bool :=
  if source ≠ target then
    (has_perm permission_name, true)
  else
    (true, false)

/-- Outcome of one guarded field write, as produced by the closure `inner`
that `authorization.__call__` returns.  `result` is the Python return value
or the exception that propagates; `consulted_has_perm` records whether
`user.has_perm` was called; `handler_invoked` records whether the wrapped
write handler `fn` was entered (i.e. whether the model could be mutated). -/
structure WriteOutcome (M : Type) where
  result : Except PyErr M
  consulted_has_perm : Bool
  handler_invoked : Bool

/-- `authorization.__call__` from `savory_pie/auth.py` lines 56-70,
specialised to a `DjangoUserPermissionValidator` permission (the only
permission validator in the repository):

```python
def inner(field, ctx, source_dict, target_obj):
    permission = field.permission
    if permission:
        auth_adapter = getattr(permission, 'auth_adapter', None) or self.auth_adapter
        name, source, target = auth_adapter(field, ctx, source_dict, target_obj)
        if not permission.is_write_authorized(ctx, target_obj, source, target):
            raise AuthorizationError(name)
    return fn(field, ctx, source_dict, target_obj)
```

`permission` is `some permission_name` when the field carries a validator
(`None` is falsy, so `none` skips the check); `adapter` is the resolved
`auth_adapter` (the permission's own, if set, else the decorator's);
`fn` is the wrapped write handler, mutating the model by state passing. -/
def authorization_call {M D V : Type} [DecidableEq V]
    (permission : Option String) (has_perm : String → Bool)
    (adapter : D → M → String × V × V)
    (fn : D → M → Except PyErr M)
    (source_dict : D) (target_obj : M) : WriteOutcome M :=
  match permission with
  | Option.none =>
      { result := fn source_dict target_obj
        consulted_has_perm := false
        handler_invoked := true }
  | some permission_name =>
      let nst := adapter source_dict target_obj
      let ac := is_write_authorized has_perm permission_name nst.2.1 nst.2.2
      if ac.1 then
        { result := fn source_dict target_obj
          consulted_has_perm := ac.2
          handler_invoked := true }
      else
        { result := Except.error (PyErr.authorizationError nst.1)
          consulted_has_perm := ac.2
          handler_invoked := false }

/-- Kernel-computable decision procedure for `≤` on `String` (Mathlib's
`String.decidableLE` is defined by a tactic cast and does not reduce),
used so that concrete sorts below evaluate. -/
def strLeDec : DecidableRel (fun a b : String => a ≤ b) := fun a b =>
  decidable_of_iff (a.toList ≤ b.toList) String.le_iff_toList_le.symm

/-- Python's `list.sort()` on strings: stable ascending sort.  Insertion
sort with `≤` computes the same list as any stable ascending sort. -/
def pysort (l : List String) : List String :=
  @List.insertionSort String (· ≤ ·) strLeDec l

/-- A member of the incoming JSON list handled by `uri_auth_adapter` for a
`RelatedManagerField`: an object carrying a `resourceUri` property. -/
structure SourceItem where
  resourceUri : String
deriving DecidableEq, Repr

/-- Python truthiness of `source_dict[name]` for a collection-valued field:
`None` and `[]` are falsy. -/
def pyTruthyOpt {β : Type} (o : Option (List β)) : Bool :=
  match o with
  | some l => !l.isEmpty
  | Option.none => false

/-- `uri_auth_adapter` from `savory_pie/django/auth.py` lines 5-34, in the
`RelatedManagerField` branch:

```python
name = field._compute_property(ctx)
source_field = source_dict[name]
target_field = getattr(target_obj, field.name)
source = None
target = None
if source_field and target_field:
    source = [item['resourceUri'] for item in source_field]
    target = [ctx.build_resource_uri(field._resource_class(t)) for t in target_field.all()]
    source.sort()
    target.sort()
return name, source, target
```

`source_field` is the incoming dict value (`none` models JSON null) and
`buildUri` models `ctx.build_resource_uri(field._resource_class(·))`.
For this field kind `target_field` is a Django related manager — an
object defining neither `__nonzero__` nor `__len__`, hence truthy even
when the relation holds no rows — so the `if source_field and
target_field:` guard reduces to the truthiness of `source_field` alone;
the relation's rows appear only inside the branch via `target_field.all()`,
modelled by the `target_field : List α` parameter (possibly empty). -/
def uri_auth_adapter {α : Type} (name : String) (buildUri : α → String)
    (source_field : Option (List SourceItem)) (target_field : List α) :
    String × Option (List String) × Option (List String) :=
  if pyTruthyOpt source_field then
    (name,
     some (pysort ((source_field.getD []).map SourceItem.resourceUri)),
     some (pysort (target_field.map buildUri)))
  else
    (name, Option.none, Option.none)

/-- `QuerySetResource.build_page_uri` from `savory_pie/django/resources.py`
lines 60-61: `ctx.build_resource_uri(self) + '?' + urllib.urlencode({'page': page})`.
`base` models `ctx.build_resource_uri(self)`. -/
def build_page_uri (base : String) (page : Nat) : String :=
  base ++ "?page=" ++ toString page

/-- The body returned by `QuerySetResource.get`: the `meta` dict
(`count`, optional `prev`/`next` page URIs) and the `objects` list. -/
structure QSGetResult (ρ : Type) where
  meta_count : Nat
  meta_prev : Option String
  meta_next : Option String
  objects : List ρ
deriving DecidableEq, Repr

/-- `QuerySetResource.get` from `savory_pie/django/resources.py` lines
87-124.  `filtered` is the row list of `filter_queryset ctx params
complete_queryset` (the declared filters applied, then the final identity
`.filter()`); `page_size` is the class attribute (`none` = paging
disabled); `page` is `params.get_as('page', int, 0)`; `toDict` models
`self.to_resource(model).get(ctx, EmptyParams())`.

`slice_queryset` (lines 52-58) returns `queryset[offset : offset +
page_size]` with `offset = page * page_size`, i.e. drop-then-take; when
paging, `count` comes from `filtered_queryset.count()`, `meta['prev']` is
set iff `page > 0` and `meta['next']` iff `(page + 1) * page_size <
count`; without paging `meta['count']` is `len(objects)`. -/
def querySet_get {α ρ : Type} (page_size : Option Nat) (base : String)
    (toDict : α → ρ) (filtered : List α) (page : Nat) : QSGetResult ρ :=
  match page_size with
  | some s =>
      let sliced := (filtered.drop (page * s)).take s
      let objects := sliced.map toDict
      let count := filtered.length
      { meta_count := count
        meta_prev := if page > 0 then some (build_page_uri base (page - 1)) else Option.none
        meta_next := if (page + 1) * s < count then some (build_page_uri base (page + 1)) else Option.none
        objects := objects }
  | Option.none =>
      let objects := filtered.map toDict
      { meta_count := objects.length
        meta_prev := Option.none
        meta_next := Option.none
        objects := objects }

/-- Observable events of one `ModelResource.put` run: `handled i` records
that `fields[i].handle_incoming` returned normally, `saved` records the
`self.model.save()` call. -/
inductive PutEvent where
  | handled (i : Nat)
  | saved
deriving DecidableEq, Repr

/-- Loop of `ModelResource.put` over the indexed field list.  Each handler
is a state-passing model of `field.handle_incoming(ctx, source_dict,
self.model)`; a raised exception aborts the loop (and the trailing
`save`). -/
def put_loop {M : Type} :
    List (Nat × (M → Except PyErr M)) → M → List PutEvent →
    Except PyErr M × List PutEvent
  | [], m, tr => (Except.ok m, tr ++ [PutEvent.saved])
  | (i, f) :: rest, m, tr =>
      match f m with
      | Except.ok m2 => put_loop rest m2 (tr ++ [PutEvent.handled i])
      | Except.error e => (Except.error e, tr)

/-- `ModelResource.put` from `savory_pie/django/resources.py` lines
270-274:

```python
for field in self.fields:
    field.handle_incoming(ctx, source_dict, self.model)
self.model.save()
```

The result also carries the event trace, so that order and number of the
`handle_incoming` / `save` calls are provable. -/
def modelResource_put_trace {M : Type} (handlers : List (M → Except PyErr M))
    (model : M) : Except PyErr M × List PutEvent :=
  put_loop handlers.enum model []

/-- Model of Python's `int(str)` builtin: an optional minus sign followed
by a non-empty run of decimal digits; anything else raises `ValueError`
(returned here as `none`). -/
def pyInt? (s : String) : Option Int :=
  let digits : List Char → Option Nat := fun l =>
    if l.isEmpty then
      Option.none
    else
      l.foldl
        (fun acc c =>
          match acc with
          | some n => if c.isDigit then some (n * 10 + (c.toNat - 48)) else Option.none
          | Option.none => Option.none)
        (some 0)
  match s.data with
  | '-' :: rest => (digits rest).map (fun n => -(n : Int))
  | chars => (digits chars).map (fun n => (n : Int))

/-- `ModelResource.get_from_queryset` from `savory_pie/django/resources.py`
lines 181-191, with the default `published_key = ('pk', int)`:

```python
attr, type_ = cls.published_key
kwargs = dict()
kwargs[attr] = type_(path_fragment)
return queryset.get(**kwargs)
```

`pks` is the list of primary keys of the rows in the (prepared) queryset.
`int(path_fragment)` is modelled by `pyInt?`, raising `ValueError` on
failure; `queryset.get(pk=k)` raises `DoesNotExist` on zero matches and
`MultipleObjectsReturned` on several. -/
def get_from_queryset (pks : List Int) (path_fragment : String) :
    Except PyErr Int :=
  match pyInt? path_fragment with
  | Option.none => Except.error (PyErr.valueError "invalid literal for int()")
  | some k =>
      match pks.filter (fun r => r = k) with
      | [] => Except.error PyErr.doesNotExist
      | [r] => Except.ok r
      | _ :: _ :: _ => Except.error PyErr.multipleObjectsReturned

/-- The child a `QuerySetResource` can hand back: the schema resource for
the `'schema'` fragment, or a `ModelResource` wrapped around the matched
row. -/
inductive ChildRes where
  | schemaRes
  | modelRes (pk : Int)
deriving DecidableEq, Repr

/-- `QuerySetResource.get_child_resource` from
`savory_pie/django/resources.py` lines 138-148:

```python
if path_fragment == 'schema':
    return SchemaResource(self.resource_class)
queryset = self.prepare_queryset(ctx, self.queryset)
try:
    model = self.resource_class.get_from_queryset(queryset, path_fragment)
    return self.to_resource(model)
except queryset.model.DoesNotExist:
    return None
```

Only `DoesNotExist` is caught; every other exception propagates. -/
def get_child_resource (pks : List Int) (path_fragment : String) :
    Except PyErr (Option ChildRes) :=
  if path_fragment = "schema" then
    Except.ok (some ChildRes.schemaRes)
  else
    match get_from_queryset pks path_fragment with
    | Except.ok r => Except.ok (some (ChildRes.modelRes r))
    | Except.error PyErr.doesNotExist => Except.ok Option.none
    | Except.error e => Except.error e

/-- An HTTP response as built by `savory_pie/django/views.py`: status
code, the headers the module sets (`Location`, `Allowed`), and the JSON
object body written through `ctx.formatter.write_to` (modelled as the
association list of its properties; `[]` when no body is written). -/
structure Response where
  status : Nat
  headers : List (String × String)
  body : List (String × String)
deriving DecidableEq, Repr

/-- Model of `traceback.format_exc()` for a raised `PyErr`: some string
serialization of the exception (its exact text is irrelevant to the
claims; only that it is derived from the exception matters). -/
def format_exc (e : PyErr) : String :=
  "Traceback (most recent call last): " ++ reprStr e

/-- `_internal_error` from `savory_pie/django/views.py` lines 112-116:
status 500, body `{'error': error}` where `error` is the formatted
traceback (`default_published_property('error')` under the default JSON
formatter is `'error'`). -/
def internal_error (e : PyErr) : Response :=
  { status := 500, headers := [], body := [("error", format_exc e)] }

/-- The behaviour of one resolved resource, as observed by the view
dispatcher.  `σ` is the persistent-store state.

* `allowed_methods` — the resource's `allowed_methods` collection;
* `get_outcome` / `post_location` / `put_outcome` — result of
  `resource.get` / `resource.post` (as the Location URI
  `ctx.build_resource_uri(new_resource)` of the created resource) /
  `resource.put`, or the exception they raise;
* `delete_argc` — the number of required arguments (beyond `self`) of the
  resource's `delete` method;
* `delete_effect` — what `delete`'s body does to the store when actually
  entered. -/
structure ViewResource (σ : Type) where
  allowed_methods : List String
  get_outcome : Except PyErr (List (String × String))
  post_location : Except PyErr String
  put_outcome : Except PyErr Unit
  delete_argc : Nat
  delete_effect : σ → σ

/-- `ModelResource.delete` from `savory_pie/django/resources.py` lines
276-277 is `def delete(self, ctx)`: one required argument beyond
`self`. -/
def modelResource_delete_argc : Nat := 1

/-- A Python call of a zero-argument call site `resource.delete()`
against a method requiring `argc` positional arguments beyond `self`:
`TypeError` when the arity does not match, otherwise the body runs. -/
def pycall_noargs {σ : Type} (argc : Nat) (body : σ → σ) (st : σ) :
    Except PyErr σ :=
  if argc = 0 then
    Except.ok (body st)
  else
    Except.error (PyErr.typeError "delete() takes exactly 2 arguments (1 given)")

/-- `_not_allowed_method` from `savory_pie/django/views.py` lines 91-94:
status 405 with an `Allowed` header joining `resource.allowed_methods`
with `','`. -/
def not_allowed_method {σ : Type} (res : ViewResource σ) : Response :=
  { status := 405
    headers := [("Allowed", String.intercalate "," res.allowed_methods)]
    body := [] }

/-- The method dispatch of `api_view.view` (`savory_pie/django/views.py`
lines 38-47) together with `_process_get/_process_post/_process_put/
_process_delete` (lines 59-85), for an already-resolved resource.  Raised
exceptions are returned in `Except.error`; the store state is threaded.

* `_process_get`: `resource.get(...)` then `_content_success` (200, body);
* `_process_post`: `resource.post(...)` then `_created` (201, `Location`);
* `_process_put`: `resource.put(...)` then `_no_content_success` (204);
* `_process_delete`: `resource.delete()` — called with no arguments —
  then `_success` (200);
* any other method, or a method absent from `allowed_methods`:
  `_not_allowed_method` (405 + `Allowed`). -/
def dispatch {σ : Type} (res : ViewResource σ) (method : String) (st : σ) :
    Except PyErr (Response × σ) :=
  if method = "GET" then
    if "GET" ∈ res.allowed_methods then
      match res.get_outcome with
      | Except.ok content => Except.ok ({ status := 200, headers := [], body := content }, st)
      | Except.error e => Except.error e
    else Except.ok (not_allowed_method res, st)
  else if method = "POST" then
    if "POST" ∈ res.allowed_methods then
      match res.post_location with
      | Except.ok loc => Except.ok ({ status := 201, headers := [("Location", loc)], body := [] }, st)
      | Except.error e => Except.error e
    else Except.ok (not_allowed_method res, st)
  else if method = "PUT" then
    if "PUT" ∈ res.allowed_methods then
      match res.put_outcome with
      | Except.ok _ => Except.ok ({ status := 204, headers := [], body := [] }, st)
      | Except.error e => Except.error e
    else Except.ok (not_allowed_method res, st)
  else if method = "DELETE" then
    if "DELETE" ∈ res.allowed_methods then
      match pycall_noargs res.delete_argc res.delete_effect st with
      | Except.ok st2 => Except.ok ({ status := 200, headers := [], body := [] }, st2)
      | Except.error e => Except.error e
    else Except.ok (not_allowed_method res, st)
  else
    Except.ok (not_allowed_method res, st)

/-- `api_view.view` from `savory_pie/django/views.py` lines 19-50, from the
point where `ctx.resolve_resource_path` has produced `resolved` (`none`
when the path does not resolve).  The surrounding bare `except:` catches
every exception and answers with `_internal_error`; a `None` resource is
answered with `_not_found` (404).  The store state is returned unchanged
whenever no successful delete ran. -/
def api_view {σ : Type} (resolved : Option (ViewResource σ)) (method : String)
    (st : σ) : Response × σ :=
  match resolved with
  | Option.none => ({ status := 404, headers := [], body := [] }, st)
  | some res =>
      match dispatch res method st with
      | Except.ok r => r
      | Except.error e => (internal_error e, st)

/-- A Python scalar value as it appears on the wire or on a model
attribute (the representative cases needed for scalar fields). -/
inductive PyV where
  | null
  | int (n : Int)
  | str (s : String)
deriving DecidableEq, Repr

/-- Modelled from the spec: `savory_pie/fields.py` (the base
`AttributeField`) is not among the sources; per spec §2/§4.1 a Field is a
"declarative descriptor mapping one model attribute ... bidirectional
converter between wire representation and model attribute" whose
`handle_outgoing(ctx, model, targetDict)` "writes the converted value into
the outgoing representation" and whose `handle_incoming(ctx, sourceDict,
targetModel)` "applies the optional permission check, then writes the
converted value onto the model".

`_get`/`_set` read and write the model attribute; `to_api_value` /
`to_python_value` are the wire/attribute converters named by
`authorization_adapter` in `savory_pie/auth.py`; `permission` is the
`permission_name` of an attached `DjangoUserPermissionValidator`, when
the field is guarded (`name` is `_compute_property(ctx)` under the default
formatter). -/
structure SpecField (M : Type) where
  name : String
  _get : M → PyV
  _set : PyV → M → M
  to_api_value : PyV → PyV
  to_python_value : PyV → PyV
  permission : Option String

/-- A Python dict of wire properties, as a total lookup function (the
claims below only read keys that were previously written; a missing key
would raise `KeyError` in Python and is modelled as `PyV.null`). -/
def Dict : Type := String → PyV

/-- `d[k] = v` — Python dict item assignment. -/
def dictSet (d : Dict) (k : String) (v : PyV) : Dict :=
  fun k2 => if k2 = k then v else d k2

/-- `authorization_adapter` from `savory_pie/auth.py` lines 4-11, the
default adapter of the `authorization` decorator:

```python
name = field._compute_property(ctx)
source = field.to_python_value(ctx, source_dict[name])
target = field.to_api_value(ctx, field._get(target_obj))
return name, source, target
```

Note the asymmetry: `source` is converted into the attribute (python)
representation, `target` into the wire (api) representation. -/
def authorization_adapter {M : Type} (f : SpecField M)
    (source_dict : Dict) (target_obj : M) : String × PyV × PyV :=
  (f.name,
   f.to_python_value (source_dict f.name),
   f.to_api_value (f._get target_obj))

/-- Modelled from the spec: the write half of `handle_incoming` for an
attribute field (spec §4.1: "writes the converted value onto the model"),
i.e. the handler that the `authorization` decorator wraps. -/
def handle_incoming_write {M : Type} (f : SpecField M)
    (source_dict : Dict) (target_obj : M) : Except PyErr M :=
  Except.ok (f._set (f.to_python_value (source_dict f.name)) target_obj)

/-- The guarded `handle_incoming` of a field: the `authorization`
decorator (from `savory_pie/auth.py`) with its default
`authorization_adapter` applied to the field's write handler. -/
def handle_incoming_guarded {M : Type} (has_perm : String → Bool)
    (f : SpecField M) (source_dict : Dict) (target_obj : M) :
    Except PyErr M :=
  (authorization_call f.permission has_perm (authorization_adapter f)
    (handle_incoming_write f) source_dict target_obj).result

/-- `ModelResource.get` from `savory_pie/django/resources.py` lines
259-268: fold `handle_outgoing` over the declared fields (spec §4.1:
each writes `to_api_value` of the attribute under the field's published
name), then add `resourceUri` when the resource has a path.  `buildUri`
models `ctx.build_resource_uri(self)`. -/
def modelResource_get {M : Type} (fields : List (SpecField M))
    (resource_path : Option String) (buildUri : String → String) (m : M) :
    Dict :=
  let d := fields.foldl
    (fun d f => dictSet d f.name (f.to_api_value (f._get m)))
    (fun _ => PyV.null)
  match resource_path with
  | some p => dictSet d "resourceUri" (PyV.str (buildUri p))
  | Option.none => d

/-- `ModelResource.put` from `savory_pie/django/resources.py` lines
270-274, with every field's `handle_incoming` guarded by the
`authorization` decorator: fold the guarded handlers, then `save` (which
persists the model unchanged). -/
def modelResource_put {M : Type} (has_perm : String → Bool)
    (fields : List (SpecField M)) (source_dict : Dict) (m : M) :
    Except PyErr M :=
  fields.foldlM (fun m f => handle_incoming_guarded has_perm f source_dict m) m

/-- A permission-guarded datetime-like field: the model attribute is an
integer, its wire representation is the decimal string (spec §4.1: fields
convert between wire representation and model attribute; `to_api_value`
renders, `to_python_value` parses).  Guarded by a
`DjangoUserPermissionValidator` with the default `authorization_adapter`
(the repository's `datetime_auth_adapter` exists precisely because such
fields render differently on the wire). -/
def dtField : SpecField PyV :=
  { name := "when"
    _get := fun v => v
    _set := fun v _ => v
    to_api_value := fun v =>
      match v with
      | PyV.int n => PyV.str (toString n)
      | v => v
    to_python_value := fun v =>
      match v with
      | PyV.str s =>
          match pyInt? s with
          | some n => PyV.int n
          | Option.none => PyV.str s
      | v => v
    permission := some "app.change_when" }

/-- A permission-guarded plain scalar field whose wire and attribute
representations coincide (identity converters). -/
def plainField : SpecField PyV :=
  { name := "n"
    _get := fun v => v
    _set := fun v _ => v
    to_api_value := fun v => v
    to_python_value := fun v => v
    permission := some "app.change_n" }

/-! ## Helper lemmas -/

/-- `pysort` always returns an ascending list. -/
theorem pysort_sorted (l : List String) : (pysort l).Sorted (· ≤ ·) :=
  @List.sorted_insertionSort String (· ≤ ·) strLeDec _ _ l

/-- `pysort` is a permutation of its input. -/
theorem pysort_perm (l : List String) : (pysort l).Perm l :=
  @List.perm_insertionSort String (· ≤ ·) strLeDec l

/-- A list and any permutation of it are empty together. -/
theorem perm_isEmpty_eq {β : Type} {l1 l2 : List β} (h : l1.Perm l2) :
    l1.isEmpty = l2.isEmpty := by
  rcases l1 with _ | ⟨a, s⟩
  · have h2 : l2 = [] := h.symm.eq_nil
    subst h2; rfl
  · rcases l2 with _ | ⟨b, t⟩
    · have h2 : (a :: s) = ([] : List β) := h.eq_nil
      simp at h2
    · rfl

/-- `pysort` depends only on the multiset of its input: sorting two
permutations of the same list gives the same result. -/
theorem pysort_eq_of_perm {l1 l2 : List String} (h : l1.Perm l2) :
    pysort l1 = pysort l2 :=
  List.eq_of_perm_of_sorted
    ((pysort_perm l1).trans (h.trans (pysort_perm l2).symm))
    (pysort_sorted l1) (pysort_sorted l2)

/-! ## Claims -/

/-- C1: for a permission-guarded field, when the adapter-computed old
value differs from the new value and `is_write_authorized` denies (the
user lacks the permission), the `authorization`-wrapped write handler
raises `AuthorizationError` carrying the field's name computed by the
adapter, `user.has_perm` was consulted, and the wrapped handler was never
invoked — so the check runs strictly before the handler and the target
model is not mutated by it. -/
theorem claim_C1_denied_write_raises {M D V : Type} [DecidableEq V]
    (pname : String) (has_perm : String → Bool)
    (adapter : D → M → String × V × V) (fn : D → M → Except PyErr M)
    (d : D) (m : M)
    (hneq : (adapter d m).2.1 ≠ (adapter d m).2.2)
    (hperm : has_perm pname = false) :
    authorization_call (some pname) has_perm adapter fn d m =
      { result := Except.error (PyErr.authorizationError (adapter d m).1)
        consulted_has_perm := true
        handler_invoked := false } := by
  unfold authorization_call is_write_authorized
  simp [hneq, hperm]

/-- Witness for C1 at a concrete guarded write: adapter value `1 ≠ 2`,
`has_perm` constantly false. -/
theorem claim_C1_denied_write_raises_witness :
    authorization_call (some "p") (fun _ => false)
        (fun (_ : Unit) (_ : Int) => ("age", (1 : Int), 2))
        (fun _ m => Except.ok (m + 1)) () 0 =
      { result := Except.error (PyErr.authorizationError "age")
        consulted_has_perm := true
        handler_invoked := false } :=
  claim_C1_denied_write_raises "p" (fun _ => false)
    (fun _ _ => ("age", (1 : Int), 2)) (fun _ m => Except.ok (m + 1)) () 0
    (by decide) rfl

/-- C2: for a permission-guarded field, when the adapter-computed old and
new values are equal (the adapter has already applied the
order-independent normalization for collection values — see
`uri_auth_adapter`), the write proceeds: the wrapped handler runs and its
result is returned, and `user.has_perm` is never consulted. -/
theorem claim_C2_unchanged_write_proceeds {M D V : Type} [DecidableEq V]
    (pname : String) (has_perm : String → Bool)
    (adapter : D → M → String × V × V) (fn : D → M → Except PyErr M)
    (d : D) (m : M)
    (heq : (adapter d m).2.1 = (adapter d m).2.2) :
    authorization_call (some pname) has_perm adapter fn d m =
      { result := fn d m
        consulted_has_perm := false
        handler_invoked := true } := by
  unfold authorization_call is_write_authorized
  simp [heq]

/-- Witness for C2 at a concrete guarded write with equal old/new values:
`has_perm` constantly false, yet the write goes through. -/
theorem claim_C2_unchanged_write_proceeds_witness :
    authorization_call (some "p") (fun _ => false)
        (fun (_ : Unit) (_ : Int) => ("age", (2 : Int), 2))
        (fun _ m => Except.ok (m + 1)) () 0 =
      { result := Except.ok 1
        consulted_has_perm := false
        handler_invoked := true } :=
  claim_C2_unchanged_write_proceeds "p" (fun _ => false)
    (fun _ _ => ("age", (2 : Int), 2)) (fun _ m => Except.ok (m + 1)) () 0
    (by decide)

/-- C6: `uri_auth_adapter` on collection-valued fields is
order-independent (its result depends only on the multiset of either
input) and produces sorted URI lists on both sides; in particular source
`[{resourceUri: 'uri2'}, {resourceUri: 'uri1'}]` against stored relation
`['uri1', 'uri3']` is compared as `['uri1', 'uri2']` vs `['uri1',
'uri3']`, which are unequal, so `is_write_authorized` consults
`user.has_perm` (the permission check is triggered). -/
theorem claim_C6_adapter_sorts_both_sides :
    (∀ (name : String) (buildUri : String → String)
        (s1 s2 : List SourceItem) (t1 t2 : List String),
        s1.Perm s2 → t1.Perm t2 →
        uri_auth_adapter name buildUri (some s1) t1 =
          uri_auth_adapter name buildUri (some s2) t2) ∧
    (∀ (α : Type) (name : String) (buildUri : α → String)
        (sf : Option (List SourceItem)) (tf : List α)
        (ls lt : List String),
        (uri_auth_adapter name buildUri sf tf).2.1 = some ls →
        (uri_auth_adapter name buildUri sf tf).2.2 = some lt →
        ls.Sorted (· ≤ ·) ∧ lt.Sorted (· ≤ ·)) ∧
    uri_auth_adapter "members" id
        (some [⟨"uri2"⟩, ⟨"uri1"⟩]) ["uri1", "uri3"] =
      ("members", some ["uri1", "uri2"], some ["uri1", "uri3"]) ∧
    (some ["uri1", "uri2"] : Option (List String)) ≠ some ["uri1", "uri3"] ∧
    (∀ (has_perm : String → Bool) (pname : String),
        (is_write_authorized has_perm pname
          (some ["uri1", "uri2"] : Option (List String))
          (some ["uri1", "uri3"])).2 = true) := by
  refine ⟨?_, ?_, by decide, by decide, ?_⟩
  · intro name buildUri s1 s2 t1 t2 hs ht
    have hse : s1.isEmpty = s2.isEmpty := perm_isEmpty_eq hs
    unfold uri_auth_adapter
    simp only [pyTruthyOpt, Option.getD, hse]
    by_cases h : (!s2.isEmpty) = true
    · simp only [h, if_true]
      rw [pysort_eq_of_perm (hs.map SourceItem.resourceUri),
        pysort_eq_of_perm (ht.map buildUri)]
    · simp only [Bool.not_eq_true] at h
      simp only [h]
      simp
  · intro α name buildUri sf tf ls lt h1 h2
    unfold uri_auth_adapter at h1 h2
    by_cases h : pyTruthyOpt sf = true
    · simp only [h, if_true] at h1 h2
      cases h1; cases h2
      exact ⟨pysort_sorted _, pysort_sorted _⟩
    · simp only [Bool.not_eq_true] at h
      simp only [h] at h1
      simp at h1
  · intro has_perm pname
    unfold is_write_authorized
    rw [if_pos (by decide)]

/-- Witness for C6's order-independence conjunct: the adapter computes the
same value on reordered inputs. -/
theorem claim_C6_adapter_sorts_both_sides_witness :
    uri_auth_adapter "members" id
        (some [⟨"uri2"⟩, ⟨"uri1"⟩]) ["uri3", "uri1"] =
      uri_auth_adapter "members" id
        (some [⟨"uri1"⟩, ⟨"uri2"⟩]) ["uri1", "uri3"] :=
  claim_C6_adapter_sorts_both_sides.1 "members" id
    [⟨"uri2"⟩, ⟨"uri1"⟩] [⟨"uri1"⟩, ⟨"uri2"⟩] ["uri3", "uri1"] ["uri1", "uri3"]
    (by decide) (by decide)

/-- C9 counterexample: the claim is false as stated.  The stored side of
the guard is a related manager, truthy even over an empty relation, so a
non-empty incoming list against an empty stored relation enters the
comparison branch: the adapter returns `(some ['uri1'], some [])` — not
`(None, None)` — and since they differ,
`DjangoUserPermissionValidator.is_write_authorized` does consult
`user.has_perm`: replacing an empty collection by a non-empty one does
trigger the permission check. -/
theorem claim_C9_counterexample :
    uri_auth_adapter "members" id (some [⟨"uri1"⟩]) ([] : List String) =
        ("members", some ["uri1"], some []) ∧
    (is_write_authorized (fun _ => false) "p"
        (uri_auth_adapter "members" id (some [⟨"uri1"⟩]) ([] : List String)).2.1
        (uri_auth_adapter "members" id (some [⟨"uri1"⟩]) ([] : List String)).2.2).2 =
      true := by
  decide

/-- C9 (amended): only the incoming side short-circuits.  When the
incoming value is falsy (null or empty), `uri_auth_adapter` returns
`source = None` and `target = None`; those compare equal, so
`is_write_authorized` authorizes the write without consulting
`user.has_perm` — replacing a stored collection (empty or not) by an
empty incoming one never triggers the permission check.  (The converse
direction is refuted by the counterexample: the stored relation is a
related manager and is truthy even when empty.) -/
theorem claim_C9_falsy_source_skips_check
    (α : Type) (name pname : String) (buildUri : α → String)
    (has_perm : String → Bool)
    (sf : Option (List SourceItem)) (tf : List α)
    (hfalsy : pyTruthyOpt sf = false) :
    uri_auth_adapter name buildUri sf tf = (name, Option.none, Option.none) ∧
    is_write_authorized has_perm pname
        (uri_auth_adapter name buildUri sf tf).2.1
        (uri_auth_adapter name buildUri sf tf).2.2 = (true, false) := by
  have hmain : uri_auth_adapter name buildUri sf tf = (name, Option.none, Option.none) := by
    unfold uri_auth_adapter
    simp only [hfalsy]
    simp
  refine ⟨hmain, ?_⟩
  rw [hmain]
  unfold is_write_authorized
  simp

/-- Witness for the amended C9: an empty incoming list replacing a
non-empty stored relation is authorized without consulting
`user.has_perm`. -/
theorem claim_C9_falsy_source_skips_check_witness :
    uri_auth_adapter "members" id (some ([] : List SourceItem)) ["uri1"] =
        ("members", Option.none, Option.none) ∧
    is_write_authorized (fun _ => false) "p"
        (uri_auth_adapter "members" id (some ([] : List SourceItem)) ["uri1"]).2.1
        (uri_auth_adapter "members" id (some ([] : List SourceItem)) ["uri1"]).2.2 =
      (true, false) :=
  claim_C9_falsy_source_skips_check String "members" "p" id (fun _ => false)
    (some []) ["uri1"] (by decide)

/-- C3: for a GET on a paging-enabled `QuerySetResource` with page size
`s`, requested page `p` and filtered row count `c`: `meta.count = c`,
`meta.prev` is present iff `p > 0`, and `meta.next` is present iff
`(p + 1) * s < c`; in particular with `c = 25`, `s = 10`: page 1 yields
count 25 with both `prev` and `next` present, and page 2 yields `next`
absent. -/
theorem claim_C3_pagination :
    (∀ (α ρ : Type) (s : Nat) (base : String) (toDict : α → ρ)
        (filtered : List α) (page : Nat),
        (querySet_get (some s) base toDict filtered page).meta_count =
            filtered.length ∧
        (querySet_get (some s) base toDict filtered page).meta_prev.isSome =
            decide (page > 0) ∧
        (querySet_get (some s) base toDict filtered page).meta_next.isSome =
            decide ((page + 1) * s < filtered.length)) ∧
    (querySet_get (some 10) "b" id (List.range 25) 1).meta_count = 25 ∧
    (querySet_get (some 10) "b" id (List.range 25) 1).meta_prev.isSome = true ∧
    (querySet_get (some 10) "b" id (List.range 25) 1).meta_next.isSome = true ∧
    (querySet_get (some 10) "b" id (List.range 25) 2).meta_next = Option.none := by
  refine ⟨?_, by decide, by decide, by decide, by decide⟩
  intro α ρ s base toDict filtered page
  unfold querySet_get
  refine ⟨rfl, ?_, ?_⟩
  · by_cases h : page > 0 <;> simp [h]
  · by_cases h : (page + 1) * s < filtered.length <;> simp [h]

/-- Trace shape of `put_loop`: on success the trace is the accumulator,
then one `handled` event per remaining field in order, then `saved`; on an
exception the trace is the accumulator plus a prefix of `handled` events
(so no `saved`). -/
theorem put_loop_spec {M : Type} (l : List (Nat × (M → Except PyErr M))) :
    ∀ (m : M) (tr : List PutEvent),
    (∀ m2, (put_loop l m tr).1 = Except.ok m2 →
        (put_loop l m tr).2 =
          tr ++ l.map (fun p => PutEvent.handled p.1) ++ [PutEvent.saved]) ∧
    (∀ e, (put_loop l m tr).1 = Except.error e →
        ∃ k, (put_loop l m tr).2 =
          tr ++ (l.take k).map (fun p => PutEvent.handled p.1)) := by
  induction l with
  | nil =>
      intro m tr
      constructor
      · intro m2 _
        simp [put_loop]
      · intro e he
        simp [put_loop] at he
  | cons p rest ih =>
      intro m tr
      obtain ⟨i, f⟩ := p
      constructor
      · intro m2 hok
        cases hf : f m with
        | ok m3 =>
            simp only [put_loop, hf] at hok ⊢
            have h1 := (ih m3 (tr ++ [PutEvent.handled i])).1 m2 hok
            rw [h1]
            simp
        | error e0 =>
            simp only [put_loop, hf] at hok
            exact absurd hok (by simp)
      · intro e he
        cases hf : f m with
        | ok m3 =>
            simp only [put_loop, hf] at he ⊢
            obtain ⟨k, hk⟩ := (ih m3 (tr ++ [PutEvent.handled i])).2 e he
            refine ⟨k + 1, ?_⟩
            rw [hk]
            simp
        | error e0 =>
            simp only [put_loop, hf] at he ⊢
            exact ⟨0, by simp⟩

/-- C4: `ModelResource.put` runs `handle_incoming` for every declared
field in declaration order and then saves exactly once, after all fields;
if some field's `handle_incoming` raises, the exception propagates and
`save` is never called (the trace contains no `saved` event). -/
theorem claim_C4_put_all_fields_then_save (M : Type)
    (handlers : List (M → Except PyErr M)) (m : M) :
    (∀ m2, (modelResource_put_trace handlers m).1 = Except.ok m2 →
        (modelResource_put_trace handlers m).2 =
          (List.range handlers.length).map PutEvent.handled ++ [PutEvent.saved]) ∧
    (∀ e, (modelResource_put_trace handlers m).1 = Except.error e →
        PutEvent.saved ∉ (modelResource_put_trace handlers m).2) := by
  constructor
  · intro m2 hok
    have h := (put_loop_spec handlers.enum m []).1 m2 hok
    unfold modelResource_put_trace
    rw [h]
    simp only [List.nil_append]
    congr 1
    have : (fun p : Nat × (M → Except PyErr M) => PutEvent.handled p.1) =
        PutEvent.handled ∘ Prod.fst := rfl
    rw [this, ← List.map_map, List.enum_map_fst]
  · intro e he
    obtain ⟨k, hk⟩ := (put_loop_spec handlers.enum m []).2 e he
    unfold modelResource_put_trace
    rw [hk]
    simp only [List.nil_append]
    intro hmem
    obtain ⟨p, _, hp⟩ := List.mem_map.mp hmem
    exact PutEvent.noConfusion hp

/-- Witness for C4 at concrete handler lists: an all-success PUT handles
field 0 then saves; a PUT whose second field raises leaves no `saved`
event in the trace. -/
theorem claim_C4_put_all_fields_then_save_witness :
    (modelResource_put_trace [fun m : Int => Except.ok (m + 1)] 0).2 =
        (List.range 1).map PutEvent.handled ++ [PutEvent.saved] ∧
    PutEvent.saved ∉ (modelResource_put_trace
        [fun m : Int => Except.ok (m + 1),
         fun _ : Int => Except.error (PyErr.userError "boom")] 0).2 :=
  ⟨(claim_C4_put_all_fields_then_save Int [fun m => Except.ok (m + 1)] 0).1 1 rfl,
   (claim_C4_put_all_fields_then_save Int
      [fun m => Except.ok (m + 1), fun _ => Except.error (PyErr.userError "boom")] 0).2
     (PyErr.userError "boom") rfl⟩

/-- C5: when the published-key lookup runs (the fragment converts to a
key) and matches no row, `QuerySetResource.get_child_resource` returns the
not-found signal `None` and raises no exception (the `DoesNotExist` from
`queryset.get` is caught). -/
theorem claim_C5_absent_key_not_found
    (pks : List Int) (path_fragment : String) (k : Int)
    (hparse : pyInt? path_fragment = some k)
    (habsent : k ∉ pks) :
    get_child_resource pks path_fragment = Except.ok Option.none := by
  have hschema : path_fragment ≠ "schema" := by
    intro h
    rw [h] at hparse
    exact Option.noConfusion ((by decide : pyInt? "schema" = Option.none) ▸ hparse)
  have hfilter : pks.filter (fun r => r = k) = [] := by
    rw [List.filter_eq_nil_iff]
    intro a ha
    simp only [decide_eq_true_eq]
    intro h
    exact habsent (h ▸ ha)
  unfold get_child_resource get_from_queryset
  rw [if_neg hschema, hparse]
  dsimp only
  rw [hfilter]

/-- Witness for C5: looking up key 7 among rows with keys 1, 2, 3 answers
`None` without raising. -/
theorem claim_C5_absent_key_not_found_witness :
    get_child_resource [1, 2, 3] "7" = Except.ok Option.none :=
  claim_C5_absent_key_not_found [1, 2, 3] "7" 7 (by decide) (by decide)

/-- C7: the view dispatcher answers an allowed POST with 201 and a
`Location` header, an allowed PUT with 204, a disallowed method with 405
and an `Allowed` header, an unresolved path with 404, and any uncaught
exception with 500 carrying a JSON body with the serialized traceback. -/
theorem claim_C7_view_statuses (σ : Type) (st : σ) (res : ViewResource σ) :
    (∀ loc, res.post_location = Except.ok loc →
        "POST" ∈ res.allowed_methods →
        api_view (some res) "POST" st =
          ({ status := 201, headers := [("Location", loc)], body := [] }, st)) ∧
    (res.put_outcome = Except.ok () →
        "PUT" ∈ res.allowed_methods →
        api_view (some res) "PUT" st =
          ({ status := 204, headers := [], body := [] }, st)) ∧
    (∀ method, method ∉ res.allowed_methods →
        api_view (some res) method st =
          ({ status := 405
             headers := [("Allowed", String.intercalate "," res.allowed_methods)]
             body := [] }, st)) ∧
    (∀ method, api_view (σ := σ) Option.none method st =
        ({ status := 404, headers := [], body := [] }, st)) ∧
    (∀ method e, dispatch res method st = Except.error e →
        api_view (some res) method st =
          ({ status := 500, headers := [], body := [("error", format_exc e)] }, st)) := by
  refine ⟨?_, ?_, ?_, ?_, ?_⟩
  · intro loc hpost hallow
    unfold api_view dispatch
    simp [hallow, hpost]
  · intro hput hallow
    unfold api_view dispatch
    simp [hallow, hput]
  · intro method hnot
    unfold api_view dispatch
    by_cases hg : method = "GET"
    · subst hg; simp [hnot, not_allowed_method]
    · by_cases hp : method = "POST"
      · subst hp; simp [hnot, not_allowed_method]
      · by_cases hu : method = "PUT"
        · subst hu; simp [hnot, not_allowed_method]
        · by_cases hd : method = "DELETE"
          · subst hd; simp [hnot, not_allowed_method]
          · simp [hg, hp, hu, hd, not_allowed_method]
  · intro method
    unfold api_view
    rfl
  · intro method e herr
    unfold api_view
    dsimp only
    rw [herr]
    rfl

/-- Witness for C7 at a concrete resource: POST answers 201 with the
Location of the new resource; an unresolved path answers 404; a DELETE on
a resource that does not allow it answers 405 with the `Allowed`
header. -/
theorem claim_C7_view_statuses_witness :
    api_view (some
        { allowed_methods := ["GET", "POST"]
          get_outcome := Except.ok [("a", "1")]
          post_location := Except.ok "http://h/api/things/9"
          put_outcome := Except.ok ()
          delete_argc := 1
          delete_effect := id }) "POST" (0 : Nat) =
      ({ status := 201, headers := [("Location", "http://h/api/things/9")]
         body := [] }, 0) ∧
    api_view (σ := Nat) Option.none "GET" 0 =
      ({ status := 404, headers := [], body := [] }, 0) ∧
    api_view (some
        { allowed_methods := ["GET", "POST"]
          get_outcome := Except.ok [("a", "1")]
          post_location := Except.ok "http://h/api/things/9"
          put_outcome := Except.ok ()
          delete_argc := 1
          delete_effect := id }) "DELETE" (0 : Nat) =
      ({ status := 405, headers := [("Allowed", "GET,POST")], body := [] }, 0) := by
  refine ⟨?_, ?_, ?_⟩
  · exact (claim_C7_view_statuses Nat 0 _).1 "http://h/api/things/9" rfl (by decide)
  · exact (claim_C7_view_statuses Nat 0
      { allowed_methods := ["GET", "POST"]
        get_outcome := Except.ok [("a", "1")]
        post_location := Except.ok "http://h/api/things/9"
        put_outcome := Except.ok ()
        delete_argc := 1
        delete_effect := id }).2.2.2.1 "GET"
  · exact (claim_C7_view_statuses Nat 0 _).2.2.1 "DELETE" (by decide)

/-- C10: dispatching a DELETE to a `ModelResource` calls
`resource.delete()` with no arguments while `ModelResource.delete`
requires a `ctx` argument, so the call raises `TypeError`, the bare
`except:` answers 500 with the serialized traceback, and the store state
is unchanged — the model is not deleted. -/
theorem claim_C10_delete_arity_500 (σ : Type) (st : σ) (res : ViewResource σ)
    (hargc : res.delete_argc = modelResource_delete_argc)
    (hallow : "DELETE" ∈ res.allowed_methods) :
    api_view (some res) "DELETE" st =
      ({ status := 500
         headers := []
         body := [("error",
           format_exc (PyErr.typeError "delete() takes exactly 2 arguments (1 given)"))] },
       st) := by
  unfold api_view dispatch pycall_noargs
  dsimp only
  rw [hargc]
  simp [hallow, modelResource_delete_argc, internal_error]

/-- Witness for C10: a DELETE-allowing resource over a store holding one
row answers 500 and the store still holds the row. -/
theorem claim_C10_delete_arity_500_witness :
    api_view (some
        { allowed_methods := ["GET", "DELETE"]
          get_outcome := Except.ok []
          post_location := Except.ok ""
          put_outcome := Except.ok ()
          delete_argc := modelResource_delete_argc
          delete_effect := fun _ => ([] : List Int) }) "DELETE" [5] =
      ({ status := 500
         headers := []
         body := [("error",
           format_exc (PyErr.typeError "delete() takes exactly 2 arguments (1 given)"))] },
       [5]) :=
  claim_C10_delete_arity_500 (List Int) [5] _ rfl (by decide)

/-- The `handle_outgoing` fold of `ModelResource.get` leaves keys not
named by any field untouched. -/
theorem get_fold_notmem {M : Type} (m : M) :
    ∀ (fields : List (SpecField M)) (d : Dict) (k : String),
      k ∉ fields.map SpecField.name →
      (fields.foldl (fun d f => dictSet d f.name (f.to_api_value (f._get m))) d) k
        = d k := by
  intro fields
  induction fields with
  | nil => intro d k _; rfl
  | cons g rest ih =>
      intro d k hk
      simp only [List.map_cons, List.mem_cons, not_or] at hk
      simp only [List.foldl_cons]
      rw [ih _ k hk.2]
      unfold dictSet
      rw [if_neg hk.1]

/-- With pairwise-distinct field names, the `handle_outgoing` fold maps
each field's published name to its converted attribute value. -/
theorem get_fold_mem {M : Type} (m : M) :
    ∀ (fields : List (SpecField M)) (d : Dict) (f : SpecField M),
      f ∈ fields → (fields.map SpecField.name).Nodup →
      (fields.foldl (fun d f => dictSet d f.name (f.to_api_value (f._get m))) d) f.name
        = f.to_api_value (f._get m) := by
  intro fields
  induction fields with
  | nil => intro d f hf; exact absurd hf (List.not_mem_nil f)
  | cons g rest ih =>
      intro d f hf hnodup
      simp only [List.map_cons, List.nodup_cons] at hnodup
      rcases List.mem_cons.mp hf with hfg | hfr
      · subst hfg
        simp only [List.foldl_cons]
        rw [get_fold_notmem m rest _ f.name hnodup.1]
        unfold dictSet
        rw [if_pos rfl]
      · simp only [List.foldl_cons]
        exact ih _ f hfr hnodup.2

/-- `ModelResource.get`'s output maps each field's published name to the
field's `to_api_value`-converted attribute value (distinct names, no field
published as `resourceUri`). -/
theorem modelResource_get_lookup {M : Type} (fields : List (SpecField M))
    (rp : Option String) (buildUri : String → String) (m : M) (f : SpecField M)
    (hf : f ∈ fields) (hnodup : (fields.map SpecField.name).Nodup)
    (hnotUri : f.name ≠ "resourceUri") :
    modelResource_get fields rp buildUri m f.name = f.to_api_value (f._get m) := by
  unfold modelResource_get
  cases rp with
  | none => exact get_fold_mem m fields _ f hf hnodup
  | some p =>
      dsimp only
      unfold dictSet
      rw [if_neg hnotUri]
      exact get_fold_mem m fields _ f hf hnodup

/-- One guarded `handle_incoming` step of the round trip: when the source
dict holds the field's own GET output and the converters fix the stored
value, the write is authorized (old equals new) and leaves the model
unchanged. -/
theorem guarded_step_ok {M : Type} (has_perm : String → Bool)
    (f : SpecField M) (d : Dict) (m : M)
    (hd : d f.name = f.to_api_value (f._get m))
    (hapi : f.to_api_value (f._get m) = f._get m)
    (hpy : f.to_python_value (f._get m) = f._get m)
    (hset : f._set (f._get m) m = m) :
    handle_incoming_guarded has_perm f d m = Except.ok m := by
  unfold handle_incoming_guarded authorization_call authorization_adapter
    handle_incoming_write is_write_authorized
  cases hp : f.permission with
  | none => simp [hd, hapi, hpy, hset]
  | some pname => simp [hd, hapi, hpy, hset]

/-- A `foldlM` over `Except` whose every step returns the accumulator
unchanged returns it unchanged. -/
theorem foldlM_ok_fixed {M β : Type} (step : M → β → Except PyErr M) (m : M) :
    ∀ l : List β, (∀ b ∈ l, step m b = Except.ok m) →
      List.foldlM step m l = Except.ok m := by
  intro l
  induction l with
  | nil => intro _; rfl
  | cons b rest ih =>
      intro hall
      rw [List.foldlM_cons, hall b (List.mem_cons_self b rest)]
      exact ih (fun c hc => hall c (List.mem_cons_of_mem b hc))

/-- C8 counterexample: the claim is false as stated.  For the guarded
datetime-like field `dtField` (default `authorization_adapter`, integer
attribute rendered as a decimal string on the wire) and a user without the
permission, feeding the GET output of the model `5` straight back as PUT
input raises an authorization denial: the adapter compares the parsed
python value `int 5` (source) against the rendered api value `str "5"`
(target), which differ even though nothing changed. -/
theorem claim_C8_roundtrip_counterexample :
    modelResource_put (fun _ => false) [dtField]
        (modelResource_get [dtField] Option.none id (PyV.int 5)) (PyV.int 5) =
      Except.error (PyErr.authorizationError "when") := by
  rfl

/-- C8 (amended): feeding a resource's GET output back as PUT input
produces no net change and never raises an authorization denial, provided
each field's adapter comparison is representation-stable on the stored
value — `to_api_value` and `to_python_value` fix it and writing the
current value back is a no-op (as with identity-converter scalar fields;
fields whose wire rendering differs from the attribute value, such as
`dtField`, violate the claim under the default adapter). -/
theorem claim_C8_roundtrip_amended (M : Type) (fields : List (SpecField M))
    (has_perm : String → Bool) (rp : Option String) (buildUri : String → String)
    (m : M)
    (hnodup : (fields.map SpecField.name).Nodup)
    (hnotUri : ∀ f ∈ fields, f.name ≠ "resourceUri")
    (hapi : ∀ f ∈ fields, f.to_api_value (f._get m) = f._get m)
    (hpy : ∀ f ∈ fields, f.to_python_value (f._get m) = f._get m)
    (hset : ∀ f ∈ fields, f._set (f._get m) m = m) :
    modelResource_put has_perm fields (modelResource_get fields rp buildUri m) m =
      Except.ok m := by
  unfold modelResource_put
  refine foldlM_ok_fixed _ m fields (fun f hf => ?_)
  exact guarded_step_ok has_perm f _ m
    (modelResource_get_lookup fields rp buildUri m f hf hnodup (hnotUri f hf))
    (hapi f hf) (hpy f hf) (hset f hf)

/-- Witness for the amended C8 at the identity-converter guarded field
`plainField` over the model value `5`, with `has_perm` constantly false:
the round trip returns the model unchanged and raises no denial. -/
theorem claim_C8_roundtrip_amended_witness :
    modelResource_put (fun _ => false) [plainField]
        (modelResource_get [plainField] (some "things/1") id (PyV.int 5))
        (PyV.int 5) =
      Except.ok (PyV.int 5) :=
  claim_C8_roundtrip_amended PyV [plainField] (fun _ => false) (some "things/1")
    id (PyV.int 5)
    (by simp)
    (by intro f hf; simp only [List.mem_singleton] at hf; subst hf; decide)
    (by intro f hf; simp only [List.mem_singleton] at hf; subst hf; rfl)
    (by intro f hf; simp only [List.mem_singleton] at hf; subst hf; rfl)
    (by intro f hf; simp only [List.mem_singleton] at hf; subst hf; rfl)

end SavoryPie
